import Mathlib

/-!
Verification development for the TTSAgentSkill command-line client
(`src/text2speech_skill/cli.py`).  The Python source is shallowly embedded:
pure request-building and control flow become Lean functions, the remote
service is an oracle (a function from poll index to the status projection it
returns, or a per-file environment of submit/await/download outcomes), wall
time is discrete (each loop iteration's sleep advances time by
`poll_interval`; status requests themselves take no model time; the float
quantities `poll_interval`, `timeout` and `progress` are modelled as `Int`
in an arbitrary fixed time unit), and Python exceptions become
`Except String` carrying the exception message.
-/

/-- Decidable equality for `Except`, so that concrete runs of the embedded
operations can be checked by `decide`. -/
instance exceptDecEq {ε α : Type} [DecidableEq ε] [DecidableEq α] :
    DecidableEq (Except ε α) := fun a b =>
  match a, b with
  | Except.error x, Except.error y =>
      if h : x = y then isTrue (by rw [h])
      else isFalse (by intro hh; cases hh; exact h rfl)
  | Except.error _, Except.ok _ => isFalse (by intro h; cases h)
  | Except.ok _, Except.error _ => isFalse (by intro h; cases h)
  | Except.ok x, Except.ok y =>
      if h : x = y then isTrue (by rw [h])
      else isFalse (by intro hh; cases hh; exact h rfl)

namespace TTS

/-- A job status projection as returned by `GET /jobs/{id}/status`
(`Text2SpeechClient.get_job_status`): `status`, optional `progress`,
optional `audio_url`, optional `error`.  An absent JSON key is `none`. -/
structure JobStatus where
  status : String
  progress : Option Int := none
  audio_url : Option String := none
  error : Option String := none
  deriving DecidableEq, Repr

/-- The three terminal states tested by `wait_for_completion`
(cli.py line 148): `["completed", "failed", "cancelled"]`. -/
def terminalStates : List String := ["completed", "failed", "cancelled"]

/-- Whether the first list of characters begins with the second
(the pattern).  Structural recursion so that concrete runs reduce in the
kernel; the building block for the Python string predicates below. -/
def beginsWith : List Char → List Char → Bool
  | _, [] => true
  | [], _ :: _ => false
  | c :: cs, p :: ps => c == p && beginsWith cs ps

/-- Python `str.startswith(pat)`, modelled on the character list of the
string. -/
def pyStartsWith (s pat : String) : Bool :=
  beginsWith s.data pat.data

/-- Python `str.strip()` with the ASCII whitespace characters (the inputs
of interest contain no exotic unicode whitespace): drop whitespace from
both ends. -/
def pyStrip (s : String) : String :=
  ⟨((s.data.dropWhile Char.isWhitespace).reverse.dropWhile
      Char.isWhitespace).reverse⟩

/-- Python truthiness of an optional string (`if instruct:`,
`status.get("audio_url")`): absent and empty are falsy. -/
def truthyOpt : Option String → Bool
  | none => false
  | some s => s != ""

/-- The message of the `TimeoutError` raised by `wait_for_completion`
(cli.py line 151): an f-string naming the job id. -/
def timeoutMsg (job_id : String) : String :=
  "Job " ++ job_id ++ " timeout"

/-- Embeds `Text2SpeechClient.wait_for_completion` (cli.py lines 140-151),
instrumented with the list of status projections fetched (one per
`get_job_status` request, in order; each is also what the progress callback
would be invoked with).  `polls k` is the projection the server returns to
the `k`-th status request.  Discrete time: the deadline check before
iteration `k` sees elapsed time `k * poll_interval` (the `k` sleeps so far).
`fuel` bounds the recursion; `none` means the bound was too small (the
Python loop would still be running). -/
def waitRun (polls : Nat → JobStatus) (job_id : String)
    (poll_interval timeout : Int) :
    Nat → Nat → Option (Except String JobStatus × List JobStatus)
  | 0, _ => none
  | fuel+1, k =>
    if (k : Int) * poll_interval < timeout then
      let st := polls k
      if st.status ∈ terminalStates then
        some (Except.ok st, [st])
      else
        match waitRun polls job_id poll_interval timeout fuel (k+1) with
        | none => none
        | some (r, tr) => some (r, st :: tr)
    else
      some (Except.error (timeoutMsg job_id), [])

/-- Embeds `Text2SpeechClient.wait_for_completion` with its
`progress_callback` parameter (cli.py lines 146-147): the callback is
modelled as a state transformer `cb : σ → JobStatus → σ` invoked once per
poll, right after the status request; its state is threaded through but
never consulted by the loop's control flow.  Returns the loop's result
together with the final callback state. -/
def waitRunCb {σ : Type} (polls : Nat → JobStatus) (job_id : String)
    (poll_interval timeout : Int) (cb : σ → JobStatus → σ) :
    Nat → Nat → σ → Option (Except String JobStatus × σ)
  | 0, _, _ => none
  | fuel+1, k, s =>
    if (k : Int) * poll_interval < timeout then
      let st := polls k
      let s' := cb s st
      if st.status ∈ terminalStates then
        some (Except.ok st, s')
      else
        waitRunCb polls job_id poll_interval timeout cb fuel (k+1) s'
    else
      some (Except.error (timeoutMsg job_id), s)

/-- Outcome of a single-job command (`cmd_speak`, `cmd_design`, `cmd_clone`)
after the awaited job reaches a terminal state or the await raises:
`saved` prints the saved path and exits 0; `failedExit` prints the failure
message on stderr and calls `sys.exit(1)`; `raised` is an uncaught
exception propagating to the top level (also a non-zero process exit). -/
inductive CmdOutcome
  | saved (output : String)
  | failedExit (msg : String)
  | raised (msg : String)
  deriving DecidableEq, Repr

/-- Embeds the shared post-await branch of `cmd_speak` (cli.py lines
187-192), `cmd_design` (206-211) and `cmd_clone` (235-240): when the
terminal status is `"completed"` and `status.get("audio_url")` is truthy,
download the artifact to `output` and report success; otherwise print
the failure message `status.get("error", "Unknown")` and exit non-zero.
The second component records whether a download was attempted. -/
def jobCmdFinish (st : JobStatus) (output : String) : CmdOutcome × Bool :=
  if st.status == "completed" && truthyOpt st.audio_url then
    (CmdOutcome.saved output, true)
  else
    (CmdOutcome.failedExit (st.error.getD "Unknown"), false)

/-- Embeds the tail of a single-job command applied to the result of
`wait_for_completion`: an exception from the await (for example the
`TimeoutError`) propagates uncaught, so no download is attempted; a
returned terminal status goes through `jobCmdFinish`. -/
def cmdAfterWait (r : Except String JobStatus) (output : String) :
    CmdOutcome × Bool :=
  match r with
  | Except.error e => (CmdOutcome.raised e, false)
  | Except.ok st => jobCmdFinish st output

/-- Embeds the URL resolution of `Text2SpeechClient.download_audio`
(cli.py lines 130-133): a URL starting with a slash is appended to the
(full) base URL; then a URL not starting with `"http"` is appended to the
base URL with a slash separator; anything else is fetched unchanged. -/
def download_audio_url (base_url audio_url : String) : String :=
  if pyStartsWith audio_url "/" then base_url ++ audio_url
  else if !(pyStartsWith audio_url "http") then base_url ++ "/" ++ audio_url
  else audio_url

/-- Split a character list at the first occurrence of the URL scheme
separator `"://"`, returning the part before it and the part after it. -/
def splitScheme : List Char → Option (List Char × List Char)
  | [] => none
  | c :: cs =>
    if beginsWith (c :: cs) [':', '/', '/'] then some ([], cs.drop 2)
    else
      match splitScheme cs with
      | none => none
      | some (pre, post) => some (c :: pre, post)

/-- Modelled from the spec: the origin of a URL, its scheme and host only
(everything up to the first slash after the scheme separator). -/
def urlOrigin (url : String) : String :=
  match splitScheme url.data with
  | some (scheme, rest) =>
      ⟨scheme ++ [':', '/', '/'] ++ rest.takeWhile (fun c => c != '/')⟩
  | none => url

/-- Modelled from the spec's wording of the download resolution (claim C6):
an absolute URL is used unchanged; a URL starting with a slash is appended
to the base URL's origin (scheme and host only); a bare relative path is
appended to the base URL.  Written for comparison with
`download_audio_url`, the definition taken from the source. -/
def specResolveUrl (base_url audio_url : String) : String :=
  if pyStartsWith audio_url "http://" || pyStartsWith audio_url "https://" then
    audio_url
  else if pyStartsWith audio_url "/" then urlOrigin base_url ++ audio_url
  else base_url ++ "/" ++ audio_url

/-- The default production base URL (cli.py line 14). -/
def API_BASE : String := "https://mc.agaii.org/TTS/api/v1"

/-- One HTTP POST request: target URL and the scalar fields of its body
(JSON keys or multipart form fields; the uploaded audio file part and the
list-valued `clone_texts` field are not inspected by any claim and are
left out of the field list). -/
structure HttpPost where
  url : String
  fields : List (String × String)
  deriving DecidableEq, Repr

/-- Embeds `Text2SpeechClient.custom_voice` (cli.py lines 51-58) as the
list of HTTP requests it issues: the payload is built from the arguments
with no client-side validation whatsoever (an empty `text` or `speaker` is
sent as-is), `instruct` is added only when truthy, and exactly one POST is
issued. -/
def custom_voice_requests (base_url text speaker language : String)
    (instruct : Option String) : List HttpPost :=
  let payload := [("text", text), ("speaker", speaker), ("language", language)]
  let payload :=
    if truthyOpt instruct then payload ++ [("instruct", instruct.getD "")]
    else payload
  [{ url := base_url ++ "/tts/custom-voice", fields := payload }]

/-- Embeds `Text2SpeechClient.voice_design` (cli.py lines 60-65) as the
list of HTTP requests it issues: no client-side validation, one POST. -/
def voice_design_requests (base_url text instruct language : String) :
    List HttpPost :=
  [{ url := base_url ++ "/tts/voice-design",
     fields := [("text", text), ("instruct", instruct), ("language", language)] }]

/-- Embeds `Text2SpeechClient.voice_clone` (cli.py lines 67-85):
`open(audio_path, 'rb')` runs before any network interaction, so a missing
reference file raises (`Except.error`) with no HTTP request issued; when
the file exists the multipart POST is built with no validation of the
text fields.  `audioExists` is the file-system oracle for `audio_path`. -/
def voice_clone_requests (base_url text audio_path : String)
    (audioExists : Bool) (language : String) (ref_text : Option String)
    (x_vector_only : Bool) (instruct : Option String) :
    Except String (List HttpPost) :=
  if audioExists then
    let data := [("text", text), ("language", language),
                 ("x_vector_only_mode", if x_vector_only then "true" else "false"),
                 ("consent_acknowledged", "true")]
    let data :=
      if truthyOpt ref_text then data ++ [("ref_text", ref_text.getD "")]
      else data
    let data :=
      if truthyOpt instruct then data ++ [("instruct", instruct.getD "")]
      else data
    Except.ok [{ url := base_url ++ "/tts/voice-clone", fields := data }]
  else
    Except.error ("FileNotFoundError: " ++ audio_path)

/-- Embeds `Text2SpeechClient.voice_clone_with_timbre` (cli.py lines
87-100): no client-side validation, one POST with `mode = "clone"`. -/
def voice_clone_with_timbre_requests (base_url text timbre_speaker language : String)
    (instruct : Option String) : List HttpPost :=
  let payload := [("text", text), ("speaker", timbre_speaker),
                  ("language", language), ("mode", "clone")]
  let payload :=
    if truthyOpt instruct then payload ++ [("instruct", instruct.getD "")]
    else payload
  [{ url := base_url ++ "/tts/custom-voice", fields := payload }]

/-- Embeds `Text2SpeechClient.voice_design_clone` (cli.py lines 102-115):
no client-side validation, one POST (the list-valued `clone_texts` body
field is not listed among the scalar fields). -/
def voice_design_clone_requests (base_url design_text design_instruct : String)
    (_clone_texts : List String) (design_language clone_language : String) :
    List HttpPost :=
  [{ url := base_url ++ "/tts/voice-design-clone",
     fields := [("design_text", design_text), ("design_instruct", design_instruct),
                ("design_language", design_language),
                ("clone_language", clone_language)] }]

/-- One input text file of a batch run: its file name (`txt_file.name`),
its stem (`txt_file.stem`), and its raw content as read by
`read_text` (before the `.strip()` the loop applies). -/
structure InputFile where
  name : String
  stem : String
  text : String
  deriving DecidableEq, Repr

/-- The remote-service / file-system oracle for one file of a batch run:
the outcome of its submission call (`job_id` or raised exception), of its
`wait_for_completion` (terminal status or raised exception, including the
`TimeoutError`), and of its `download_audio` (unit or raised exception).
Later components are only consulted when the control flow reaches them. -/
structure FileEnv where
  submitRes : Except String String
  waitRes : Except String JobStatus
  downloadRes : Except String Unit
  deriving DecidableEq, Repr

/-- Whether the per-file environment makes the submit/await/download
pipeline raise an exception with message `m` at the step the control flow
actually reaches: the submission raises; or it succeeds and the await
raises (for example with the `TimeoutError`); or both succeed with a
completed status carrying a truthy `audio_url` and the download raises. -/
def envRaises (env : FileEnv) (m : String) : Bool :=
  match env.submitRes with
  | Except.error e => e == m
  | Except.ok _ =>
    match env.waitRes with
    | Except.error e => e == m
    | Except.ok st =>
      if st.status == "completed" && truthyOpt st.audio_url then
        match env.downloadRes with
        | Except.error e => e == m
        | Except.ok _ => false
      else false

/-- One entry of the batch results list, mirroring the dicts appended in
`cmd_batch_speak` / `cmd_batch_clone`: file name, a `status` string among
`"success"`, `"failed"`, `"error"`, and the optional `output` / `error`
keys (absent is `none`). -/
structure BatchResult where
  file : String
  status : String
  output : Option String := none
  error : Option String := none
  deriving DecidableEq, Repr

/-- Embeds one iteration of the `cmd_batch_speak` loop body (cli.py lines
255-278): an empty stripped text skips the file (no results entry, no
submission); otherwise the submit/await/download pipeline runs under the
per-file `try`, any raised exception becomes an `"error"` entry carrying
the exception's message, a terminal status other than
completed-with-truthy-audio becomes a `"failed"` entry carrying
`status.get("error", "Unknown")`, and success appends a `"success"` entry
whose `output` is the artifact path `output_dir/stem.wav`.  The second
component records whether a submission request was issued. -/
def processFileSpeak (f : InputFile) (env : FileEnv) (output_dir : String) :
    Option BatchResult × Bool :=
  if pyStrip f.text == "" then (none, false)
  else
    (some (match env.submitRes with
      | Except.error e => { file := f.name, status := "error", error := some e }
      | Except.ok _jid =>
        match env.waitRes with
        | Except.error e => { file := f.name, status := "error", error := some e }
        | Except.ok st =>
          if st.status == "completed" && truthyOpt st.audio_url then
            match env.downloadRes with
            | Except.error e =>
                { file := f.name, status := "error", error := some e }
            | Except.ok _ =>
                { file := f.name, status := "success",
                  output := some (output_dir ++ "/" ++ f.stem ++ ".wav") }
          else
            { file := f.name, status := "failed",
              error := some (st.error.getD "Unknown") }),
     true)

/-- Embeds one iteration of the `cmd_batch_clone` loop body (cli.py lines
306-329).  Identical control flow to `processFileSpeak` except that the
`"success"` entry records only the file name and status — no `output` key
(cli.py line 322; the artifact is still downloaded to
`output_dir/stem.wav`, the path is just not recorded). -/
def processFileClone (f : InputFile) (env : FileEnv) (_output_dir : String) :
    Option BatchResult × Bool :=
  if pyStrip f.text == "" then (none, false)
  else
    (some (match env.submitRes with
      | Except.error e => { file := f.name, status := "error", error := some e }
      | Except.ok _jid =>
        match env.waitRes with
        | Except.error e => { file := f.name, status := "error", error := some e }
        | Except.ok st =>
          if st.status == "completed" && truthyOpt st.audio_url then
            match env.downloadRes with
            | Except.error e =>
                { file := f.name, status := "error", error := some e }
            | Except.ok _ => { file := f.name, status := "success" }
          else
            { file := f.name, status := "failed",
              error := some (st.error.getD "Unknown") }),
     true)

/-- The observable outcome of a batch command: the ordered results list,
the number of submission requests issued, the path of the JSON report file
written (`none` when no report is written), and the printed
`successes/total` summary counts. -/
structure BatchRunOutput where
  results : List BatchResult
  submitted : Nat
  reportWritten : Option String
  successes : Nat
  total : Nat
  deriving DecidableEq, Repr

/-- Embeds `cmd_batch_speak` (cli.py lines 243-286): iterate the per-file
body over the (already sorted) input files appending each produced entry,
write the JSON report `batch_report.json` into the output directory, and
print `successes/len(results)`.  `files` pairs each input file with its
oracle. -/
def cmd_batch_speak (files : List (InputFile × FileEnv)) (output_dir : String) :
    BatchRunOutput :=
  let results := files.foldl (fun acc fe =>
    acc ++ ((processFileSpeak fe.1 fe.2 output_dir).1).toList) []
  { results := results
    submitted :=
      (files.filter (fun fe => (processFileSpeak fe.1 fe.2 output_dir).2)).length
    reportWritten := some (output_dir ++ "/batch_report.json")
    successes := results.countP (fun r => r.status == "success")
    total := results.length }

/-- Embeds `cmd_batch_clone` (cli.py lines 289-332): after the upfront
existence check of the shared reference audio (`none` models the
`sys.exit(1)` on a missing file), iterate the per-file body; no report
file is written (the function only prints the `successes/total`
summary). -/
def cmd_batch_clone (files : List (InputFile × FileEnv)) (output_dir : String)
    (refAudioExists : Bool) : Option BatchRunOutput :=
  if !refAudioExists then none
  else
    let results := files.foldl (fun acc fe =>
      acc ++ ((processFileClone fe.1 fe.2 output_dir).1).toList) []
    some { results := results
           submitted :=
             (files.filter (fun fe => (processFileClone fe.1 fe.2 output_dir).2)).length
           reportWritten := none
           successes := results.countP (fun r => r.status == "success")
           total := results.length }

/-- Unfolding equation for one step of `waitRun` with positive fuel. -/
lemma waitRun_succ (polls : Nat → JobStatus) (job_id : String)
    (poll_interval timeout : Int) (fuel k : Nat) :
    waitRun polls job_id poll_interval timeout (fuel+1) k
      = if (k : Int) * poll_interval < timeout then
          (if (polls k).status ∈ terminalStates then
            some (Except.ok (polls k), [polls k])
          else
            match waitRun polls job_id poll_interval timeout fuel (k+1) with
            | none => none
            | some (r, tr) => some (r, polls k :: tr))
        else
          some (Except.error (timeoutMsg job_id), []) := rfl

/-- The polling loop returns the status of the first terminal poll, with
the trace listing exactly the `j+1` status requests issued up to and
including it, provided the deadline window covers those polls and the
fuel bound is large enough. -/
lemma waitRun_first_terminal (polls : Nat → JobStatus) (job_id : String)
    (poll_interval timeout : Int) :
    ∀ (j k fuel : Nat), j < fuel →
      (∀ i, i < j → (polls (k+i)).status ∉ terminalStates) →
      (polls (k+j)).status ∈ terminalStates →
      (∀ i, i ≤ j → ((k+i : Nat) : Int) * poll_interval < timeout) →
      waitRun polls job_id poll_interval timeout fuel k
        = some (Except.ok (polls (k+j)),
            (List.range (j+1)).map (fun i => polls (k+i))) := by
  intro j
  induction j with
  | zero =>
    intro k fuel hfuel hbefore hterm hwin
    cases fuel with
    | zero => omega
    | succ fuel' =>
      rw [waitRun_succ]
      rw [if_pos (by simpa using hwin 0 (Nat.le_refl 0))]
      rw [if_pos (by simpa using hterm)]
      simp [List.range_succ]
  | succ j ih =>
    intro k fuel hfuel hbefore hterm hwin
    cases fuel with
    | zero => omega
    | succ fuel' =>
      rw [waitRun_succ]
      rw [if_pos (by simpa using hwin 0 (Nat.zero_le _))]
      rw [if_neg (by simpa using hbefore 0 (Nat.succ_pos j))]
      rw [ih (k+1) fuel' (by omega)
        (fun i hi => by
          have := hbefore (i+1) (by omega)
          have heq : k + 1 + i = k + (i + 1) := by omega
          rw [heq]; exact this)
        (by
          have heq : k + 1 + j = k + (j + 1) := by omega
          rw [heq]; exact hterm)
        (fun i hi => by
          have := hwin (i+1) (by omega)
          have heq : k + 1 + i = k + (i + 1) := by omega
          rw [heq]; exact this)]
      have hmap : (List.range (j+1+1)).map (fun i => polls (k+i))
          = polls k :: (List.range (j+1)).map (fun i => polls (k+1+i)) := by
        rw [List.range_succ_eq_map, List.map_cons, List.map_map]
        congr 1
        apply List.map_congr_left
        intro i _
        show polls (k + (i+1)) = polls (k+1+i)
        congr 1
        omega
      rw [hmap]
      have heq : k + 1 + j = k + (j + 1) := by omega
      rw [heq]

/-- When no poll inside the deadline window is terminal, the loop performs
exactly the `n` polls of the window (those with `k * poll_interval <
timeout`) and then stops with the timeout error, provided the fuel bound
is large enough. -/
lemma waitRun_timeout (polls : Nat → JobStatus) (job_id : String)
    (poll_interval timeout : Int) :
    ∀ (n k fuel : Nat), n < fuel →
      (∀ i, i < n → ((k+i : Nat) : Int) * poll_interval < timeout ∧
        (polls (k+i)).status ∉ terminalStates) →
      ¬(((k+n : Nat) : Int) * poll_interval < timeout) →
      waitRun polls job_id poll_interval timeout fuel k
        = some (Except.error (timeoutMsg job_id),
            (List.range n).map (fun i => polls (k+i))) := by
  intro n
  induction n with
  | zero =>
    intro k fuel hfuel hwin hend
    cases fuel with
    | zero => omega
    | succ fuel' =>
      rw [waitRun_succ]
      rw [if_neg (by simpa using hend)]
      simp
  | succ n ih =>
    intro k fuel hfuel hwin hend
    cases fuel with
    | zero => omega
    | succ fuel' =>
      rw [waitRun_succ]
      rw [if_pos (by simpa using (hwin 0 (Nat.succ_pos n)).1)]
      rw [if_neg (by simpa using (hwin 0 (Nat.succ_pos n)).2)]
      rw [ih (k+1) fuel' (by omega)
        (fun i hi => by
          have := hwin (i+1) (by omega)
          have heq : k + 1 + i = k + (i + 1) := by omega
          rw [heq]; exact this)
        (by
          have heq : k + 1 + n = k + (n + 1) := by omega
          rw [heq]; exact hend)]
      have hmap : (List.range (n+1)).map (fun i => polls (k+i))
          = polls k :: (List.range n).map (fun i => polls (k+1+i)) := by
        rw [List.range_succ_eq_map, List.map_cons, List.map_map]
        congr 1
        apply List.map_congr_left
        intro i _
        show polls (k + (i+1)) = polls (k+1+i)
        congr 1
        omega
      rw [hmap]

/-- The callback-threading loop equals the instrumented loop with the
callback folded over the trace of fetched statuses: the loop's result is
independent of the callback and its state, and the callback is applied
exactly once per poll, in poll order. -/
lemma waitRunCb_eq_map {σ : Type} (polls : Nat → JobStatus) (job_id : String)
    (poll_interval timeout : Int) (cb : σ → JobStatus → σ) :
    ∀ (fuel k : Nat) (s : σ),
      waitRunCb polls job_id poll_interval timeout cb fuel k s
        = (waitRun polls job_id poll_interval timeout fuel k).map
            (fun p => (p.1, p.2.foldl cb s)) := by
  intro fuel
  induction fuel with
  | zero => intro k s; rfl
  | succ fuel ih =>
    intro k s
    by_cases hc : (k : Int) * poll_interval < timeout
    · by_cases hterm : (polls k).status ∈ terminalStates
      · rw [waitRun_succ, if_pos hc, if_pos hterm]
        simp [waitRunCb, hc, hterm]
      · rw [waitRun_succ, if_pos hc, if_neg hterm]
        have hL : waitRunCb polls job_id poll_interval timeout cb (fuel+1) k s
            = waitRunCb polls job_id poll_interval timeout cb fuel (k+1)
                (cb s (polls k)) := by
          simp [waitRunCb, hc, hterm]
        rw [hL, ih]
        cases hrec : waitRun polls job_id poll_interval timeout fuel (k+1) with
        | none => simp
        | some p =>
          cases p with
          | mk r tr => simp
    · rw [waitRun_succ, if_neg hc]
      simp [waitRunCb, hc]

/-- The append-per-element fold of the batch loops equals the accumulator
followed by a `filterMap`. -/
lemma foldl_append_filterMap {α β : Type} (g : α → Option β) :
    ∀ (l : List α) (acc : List β),
      l.foldl (fun acc a => acc ++ (g a).toList) acc
        = acc ++ l.filterMap g := by
  intro l
  induction l with
  | nil => intro acc; simp
  | cons a l ih =>
    intro acc
    rw [List.foldl_cons, ih]
    cases hg : g a with
    | none => simp [List.filterMap_cons, hg]
    | some b => simp [List.filterMap_cons, hg]

/-- The length of a `filterMap` counts the elements mapped to `some`. -/
lemma filterMap_length_countP {α β : Type} (g : α → Option β) (l : List α) :
    (l.filterMap g).length = l.countP (fun a => (g a).isSome) := by
  induction l with
  | nil => rfl
  | cons a l ih =>
    cases hg : g a <;> simp [List.filterMap_cons, hg, List.countP_cons, ih]

/-- Counting with pointwise-equal predicates gives equal counts. -/
lemma countP_ext {α : Type} (p q : α → Bool) (h : ∀ a, p a = q a)
    (l : List α) : l.countP p = l.countP q := by
  induction l with
  | nil => rfl
  | cons a l ih => simp [List.countP_cons, h a, ih]

/-- Filtering with pointwise-equal predicates gives equal lists. -/
lemma filter_ext {α : Type} (p q : α → Bool) (h : ∀ a, p a = q a)
    (l : List α) : l.filter p = l.filter q := by
  induction l with
  | nil => rfl
  | cons a l ih => simp [List.filter_cons, h a, ih]

/-- The results list built by `cmd_batch_speak` is the `filterMap` of the
per-file body over the input files. -/
lemma cmd_batch_speak_results (files : List (InputFile × FileEnv))
    (output_dir : String) :
    (cmd_batch_speak files output_dir).results
      = files.filterMap (fun fe => (processFileSpeak fe.1 fe.2 output_dir).1) := by
  have h := foldl_append_filterMap
    (fun fe => (processFileSpeak fe.1 fe.2 output_dir).1) files []
  simpa [cmd_batch_speak] using h

/-- `cmd_batch_clone` with an existing reference audio, written without the
internal fold: the results list is the `filterMap` of the per-file body. -/
lemma cmd_batch_clone_true (files : List (InputFile × FileEnv))
    (output_dir : String) :
    cmd_batch_clone files output_dir true
      = some
          { results :=
              files.filterMap (fun fe => (processFileClone fe.1 fe.2 output_dir).1)
            submitted :=
              (files.filter (fun fe => (processFileClone fe.1 fe.2 output_dir).2)).length
            reportWritten := none
            successes :=
              (files.filterMap
                (fun fe => (processFileClone fe.1 fe.2 output_dir).1)).countP
                  (fun r => r.status == "success")
            total :=
              (files.filterMap
                (fun fe => (processFileClone fe.1 fe.2 output_dir).1)).length } := by
  have h := foldl_append_filterMap
    (fun fe => (processFileClone fe.1 fe.2 output_dir).1) files []
  simp at h
  simp [cmd_batch_clone, h]

/-- An empty (after stripping) input file is skipped: no results entry and
no submission, in the speak batch. -/
lemma processFileSpeak_empty (f : InputFile) (env : FileEnv) (od : String)
    (he : pyStrip f.text = "") : processFileSpeak f env od = (none, false) := by
  unfold processFileSpeak
  rw [if_pos (by simp [he])]

/-- An empty (after stripping) input file is skipped: no results entry and
no submission, in the clone batch. -/
lemma processFileClone_empty (f : InputFile) (env : FileEnv) (od : String)
    (he : pyStrip f.text = "") : processFileClone f env od = (none, false) := by
  unfold processFileClone
  rw [if_pos (by simp [he])]

/-- A non-empty file always produces exactly one results entry and issues a
submission (speak batch): the entry presence flag equals non-emptiness. -/
lemma processFileSpeak_isSome (f : InputFile) (env : FileEnv) (od : String) :
    ((processFileSpeak f env od).1.isSome = (pyStrip f.text != ""))
    ∧ ((processFileSpeak f env od).2 = (pyStrip f.text != "")) := by
  by_cases he : (pyStrip f.text == "") = true
  · simp [processFileSpeak, he, bne]
  · have he' : (pyStrip f.text == "") = false := by simpa using he
    simp [processFileSpeak, he', bne]

/-- A non-empty file always produces exactly one results entry and issues a
submission (clone batch). -/
lemma processFileClone_isSome (f : InputFile) (env : FileEnv) (od : String) :
    ((processFileClone f env od).1.isSome = (pyStrip f.text != ""))
    ∧ ((processFileClone f env od).2 = (pyStrip f.text != "")) := by
  by_cases he : (pyStrip f.text == "") = true
  · simp [processFileClone, he, bne]
  · have he' : (pyStrip f.text == "") = false := by simpa using he
    simp [processFileClone, he', bne]

/-- When the per-file pipeline raises with message `m`, the speak batch
records exactly the `"error"` entry carrying that message. -/
lemma processFileSpeak_of_raises (f : InputFile) (env : FileEnv) (od m : String)
    (hne : pyStrip f.text ≠ "") (hr : envRaises env m = true) :
    processFileSpeak f env od
      = (some { file := f.name, status := "error", error := some m }, true) := by
  have he' : (pyStrip f.text == "") = false := by simpa using hne
  cases hs : env.submitRes with
  | error e =>
    have hm : e = m := by
      unfold envRaises at hr; rw [hs] at hr; simpa using hr
    simp [processFileSpeak, he', hs, hm]
  | ok jid =>
    cases hw : env.waitRes with
    | error e =>
      have hm : e = m := by
        unfold envRaises at hr; rw [hs, hw] at hr; simpa using hr
      simp [processFileSpeak, he', hs, hw, hm]
    | ok st =>
      by_cases hc : (st.status == "completed" && truthyOpt st.audio_url) = true
      · cases hd : env.downloadRes with
        | error e =>
          have hm : e = m := by
            unfold envRaises at hr; rw [hs, hw, hd] at hr
            simpa [hc] using hr
          simp [processFileSpeak, he', hs, hw, hc, hd, hm]
        | ok u =>
          exfalso
          unfold envRaises at hr
          rw [hs, hw, hd] at hr
          simp [hc] at hr
      · exfalso
        have hc' : (st.status == "completed" && truthyOpt st.audio_url) = false := by
          simpa using hc
        unfold envRaises at hr
        rw [hs, hw] at hr
        simp [hc'] at hr

/-- When the per-file pipeline raises with message `m`, the clone batch
records exactly the `"error"` entry carrying that message. -/
lemma processFileClone_of_raises (f : InputFile) (env : FileEnv) (od m : String)
    (hne : pyStrip f.text ≠ "") (hr : envRaises env m = true) :
    processFileClone f env od
      = (some { file := f.name, status := "error", error := some m }, true) := by
  have he' : (pyStrip f.text == "") = false := by simpa using hne
  cases hs : env.submitRes with
  | error e =>
    have hm : e = m := by
      unfold envRaises at hr; rw [hs] at hr; simpa using hr
    simp [processFileClone, he', hs, hm]
  | ok jid =>
    cases hw : env.waitRes with
    | error e =>
      have hm : e = m := by
        unfold envRaises at hr; rw [hs, hw] at hr; simpa using hr
      simp [processFileClone, he', hs, hw, hm]
    | ok st =>
      by_cases hc : (st.status == "completed" && truthyOpt st.audio_url) = true
      · cases hd : env.downloadRes with
        | error e =>
          have hm : e = m := by
            unfold envRaises at hr; rw [hs, hw, hd] at hr
            simpa [hc] using hr
          simp [processFileClone, he', hs, hw, hc, hd, hm]
        | ok u =>
          exfalso
          unfold envRaises at hr
          rw [hs, hw, hd] at hr
          simp [hc] at hr
      · exfalso
        have hc' : (st.status == "completed" && truthyOpt st.audio_url) = false := by
          simpa using hc
        unfold envRaises at hr
        rw [hs, hw] at hr
        simp [hc'] at hr

/-- Every entry the clone batch appends has no `output` field. -/
lemma processFileClone_output_none (f : InputFile) (env : FileEnv)
    (od : String) (r : BatchResult)
    (h : (processFileClone f env od).1 = some r) : r.output = none := by
  by_cases he : (pyStrip f.text == "") = true
  · simp [processFileClone, he] at h
  · have he' : (pyStrip f.text == "") = false := by simpa using he
    cases hs : env.submitRes with
    | error e =>
      simp [processFileClone, he', hs] at h
      simp [← h]
    | ok jid =>
      cases hw : env.waitRes with
      | error e =>
        simp [processFileClone, he', hs, hw] at h
        simp [← h]
      | ok st =>
        by_cases hc : (st.status == "completed" && truthyOpt st.audio_url) = true
        · cases hd : env.downloadRes with
          | error e =>
            simp [processFileClone, he', hs, hw, hc, hd] at h
            simp [← h]
          | ok u =>
            simp [processFileClone, he', hs, hw, hc, hd] at h
            simp [← h]
        · have hc' : (st.status == "completed" && truthyOpt st.audio_url) = false := by
            simpa using hc
          simp [processFileClone, he', hs, hw, hc'] at h
          simp [← h]

/-- Every `"success"` entry the speak batch appends carries the artifact
path `output_dir/stem.wav`. -/
lemma processFileSpeak_success_output (f : InputFile) (env : FileEnv)
    (od : String) (r : BatchResult)
    (h : (processFileSpeak f env od).1 = some r) (hst : r.status = "success") :
    r.output = some (od ++ "/" ++ f.stem ++ ".wav") := by
  by_cases he : (pyStrip f.text == "") = true
  · simp [processFileSpeak, he] at h
  · have he' : (pyStrip f.text == "") = false := by simpa using he
    cases hs : env.submitRes with
    | error e =>
      simp [processFileSpeak, he', hs] at h
      rw [← h] at hst
      simp at hst
    | ok jid =>
      cases hw : env.waitRes with
      | error e =>
        simp [processFileSpeak, he', hs, hw] at h
        rw [← h] at hst
        simp at hst
      | ok st =>
        by_cases hc : (st.status == "completed" && truthyOpt st.audio_url) = true
        · cases hd : env.downloadRes with
          | error e =>
            simp [processFileSpeak, he', hs, hw, hc, hd] at h
            rw [← h] at hst
            simp at hst
          | ok u =>
            simp [processFileSpeak, he', hs, hw, hc, hd] at h
            simp [← h]
        · have hc' : (st.status == "completed" && truthyOpt st.audio_url) = false := by
            simpa using hc
          simp [processFileSpeak, he', hs, hw, hc'] at h
          rw [← h] at hst
          simp at hst

end TTS

namespace TTS

-- Sanity examples (concrete evaluation of the loop embedding).
example :
    waitRun (fun _ => { status := "completed" }) "j1" 1 300 5 0
      = some (Except.ok { status := "completed" }, [{ status := "completed" }]) := by
  decide

example :
    waitRun (fun _ => { status := "processing" }) "j1" 1 2 3 0
      = some (Except.error (timeoutMsg "j1"),
          [{ status := "processing" }, { status := "processing" }]) := by
  decide

end TTS

namespace TTS

/-- C1: for every job id, `wait_for_completion` returns the status
projection of the first poll whose status field is one of the three
terminal values (completed, failed, cancelled) immediately: the trace of
status requests is exactly the `j+1` polls up to and including that first
terminal poll, so no further status request is issued after it. -/
theorem wait_returns_first_terminal_poll (polls : Nat → JobStatus)
    (job_id : String) (poll_interval timeout : Int) (j fuel : Nat)
    (hfuel : j < fuel)
    (hbefore : ∀ i, i < j → (polls i).status ∉ terminalStates)
    (hterm : (polls j).status ∈ terminalStates)
    (hwin : ∀ i, i ≤ j → (i : Int) * poll_interval < timeout) :
    waitRun polls job_id poll_interval timeout fuel 0
      = some (Except.ok (polls j), (List.range (j+1)).map polls) := by
  have h := waitRun_first_terminal polls job_id poll_interval timeout j 0 fuel
    hfuel (by simpa using hbefore) (by simpa using hterm) (by simpa using hwin)
  simpa using h

/-- Witness for C1: a concrete run that polls a processing status once and
then a completed status returns the completed projection after exactly two
status requests. -/
theorem wait_returns_first_terminal_poll_witness :
    waitRun
        (fun k => if k = 0 then { status := "processing" }
          else { status := "completed", audio_url := some "/files/j1.wav" })
        "j1" 1 300 5 0
      = some
          (Except.ok
            ({ status := "completed", audio_url := some "/files/j1.wav" } :
              JobStatus),
           [{ status := "processing" },
            { status := "completed", audio_url := some "/files/j1.wav" }]) := by
  rw [wait_returns_first_terminal_poll
    (fun k => if k = 0 then { status := "processing" }
      else { status := "completed", audio_url := some "/files/j1.wav" })
    "j1" 1 300 1 5 (by omega) (by decide) (by decide) (by decide)]
  decide

/-- C2: when no poll inside the deadline window observes a terminal status,
`wait_for_completion` performs exactly the window's polls, stops, and fails
with the timeout error, whose message names the job id; the caller then
propagates the exception and attempts no artifact download. -/
theorem wait_times_out_without_download (polls : Nat → JobStatus)
    (job_id output : String) (poll_interval timeout : Int) (n fuel : Nat)
    (hfuel : n < fuel)
    (hwin : ∀ i, i < n → (i : Int) * poll_interval < timeout ∧
      (polls i).status ∉ terminalStates)
    (hend : ¬((n : Int) * poll_interval < timeout)) :
    waitRun polls job_id poll_interval timeout fuel 0
      = some (Except.error (timeoutMsg job_id), (List.range n).map polls)
    ∧ (∃ pre post, timeoutMsg job_id = pre ++ job_id ++ post)
    ∧ cmdAfterWait (Except.error (timeoutMsg job_id)) output
        = (CmdOutcome.raised (timeoutMsg job_id), false) := by
  refine ⟨?_, ⟨"Job ", " timeout", rfl⟩, rfl⟩
  have h := waitRun_timeout polls job_id poll_interval timeout n 0 fuel hfuel
    (by simpa using hwin) (by simpa using hend)
  simpa using h

/-- Witness for C2: with poll interval 1 and timeout 2 against a server
that never leaves processing, the loop polls exactly twice, raises the
timeout error naming the job id, and the caller attempts no download. -/
theorem wait_times_out_without_download_witness :
    waitRun (fun _ => { status := "processing" }) "j9" 1 2 3 0
      = some (Except.error (timeoutMsg "j9"),
          [{ status := "processing" }, { status := "processing" }])
    ∧ (∃ pre post, timeoutMsg "j9" = pre ++ "j9" ++ post)
    ∧ cmdAfterWait (Except.error (timeoutMsg "j9")) "out.wav"
        = (CmdOutcome.raised (timeoutMsg "j9"), false) := by
  have h := wait_times_out_without_download
    (fun _ => { status := "processing" }) "j9" "out.wav" 1 2 2 3
    (by omega) (by decide) (by decide)
  refine ⟨?_, h.2.1, h.2.2⟩
  rw [h.1]
  decide

/-- C9: the progress callback is invoked exactly once per poll with the
status projection fetched by that poll, in poll order (the final callback
state is the fold of the callback over the exact trace of fetched
statuses, including unchanged and terminal polls), and neither the
presence nor the behaviour of the callback affects the loop's control
flow: the returned result is the callback-free run's result. -/
theorem progress_callback_once_per_poll_and_inert {σ : Type}
    (polls : Nat → JobStatus) (job_id : String) (poll_interval timeout : Int)
    (cb : σ → JobStatus → σ) (fuel k : Nat) (s : σ) :
    waitRunCb polls job_id poll_interval timeout cb fuel k s
      = (waitRun polls job_id poll_interval timeout fuel k).map
          (fun p => (p.1, p.2.foldl cb s)) :=
  waitRunCb_eq_map polls job_id poll_interval timeout cb fuel k s

/-- C10: a non-positive timeout makes `wait_for_completion` raise the
timeout error before issuing a single status request — the deadline check
precedes each poll — so the trace is empty and the progress callback is
never invoked (its state is returned unchanged). -/
theorem nonpositive_timeout_zero_polls {σ : Type} (polls : Nat → JobStatus)
    (job_id : String) (poll_interval timeout : Int) (ht : timeout ≤ 0)
    (fuel : Nat) (cb : σ → JobStatus → σ) (s : σ) :
    waitRun polls job_id poll_interval timeout (fuel+1) 0
      = some (Except.error (timeoutMsg job_id), [])
    ∧ waitRunCb polls job_id poll_interval timeout cb (fuel+1) 0 s
      = some (Except.error (timeoutMsg job_id), s) := by
  have hc : ¬(((0 : Nat) : Int) * poll_interval < timeout) := by
    simpa using not_lt.mpr ht
  constructor
  · rw [waitRun_succ, if_neg hc]
  · simp only [waitRunCb]
    rw [if_neg hc]

/-- Witness for C10: timeout 0 raises at once with an empty trace, and a
counting callback's state stays at its initial value 0. -/
theorem nonpositive_timeout_zero_polls_witness :
    waitRun (fun _ => { status := "processing" }) "j0" 1 0 1 0
      = some (Except.error (timeoutMsg "j0"), [])
    ∧ waitRunCb (fun _ => { status := "processing" }) "j0" 1 0
        (fun (s : Nat) _ => s + 1) 1 0 0
      = some (Except.error (timeoutMsg "j0"), 0) :=
  nonpositive_timeout_zero_polls (fun _ => { status := "processing" })
    "j0" 1 0 (by omega) 0 (fun s _ => s + 1) 0

end TTS

namespace TTS

/-- C3: in a batch run, an exception raised during an individual file's
submit, await or download is caught at per-file granularity and recorded
as an `"error"` entry carrying the exception's message, and processing
continues: the results list is the per-file body mapped over all input
files with exactly one entry per non-empty file, and the failing file's
error record appears in it — no single file's failure aborts the batch.
Holds for both `cmd_batch_speak` and `cmd_batch_clone`. -/
theorem batch_isolates_per_file_failures
    (files : List (InputFile × FileEnv)) (output_dir : String)
    (f : InputFile) (env : FileEnv) (m : String)
    (hmem : (f, env) ∈ files) (hne : pyStrip f.text ≠ "")
    (hr : envRaises env m = true) :
    ((cmd_batch_speak files output_dir).results
        = files.filterMap (fun fe => (processFileSpeak fe.1 fe.2 output_dir).1))
    ∧ (cmd_batch_speak files output_dir).results.length
        = (files.filter (fun fe => pyStrip fe.1.text != "")).length
    ∧ (processFileSpeak f env output_dir).1
        = some { file := f.name, status := "error", error := some m }
    ∧ ({ file := f.name, status := "error", error := some m } : BatchResult)
        ∈ (cmd_batch_speak files output_dir).results
    ∧ (∀ out, cmd_batch_clone files output_dir true = some out →
        out.results
            = files.filterMap (fun fe => (processFileClone fe.1 fe.2 output_dir).1)
        ∧ out.results.length
            = (files.filter (fun fe => pyStrip fe.1.text != "")).length
        ∧ ({ file := f.name, status := "error", error := some m } : BatchResult)
            ∈ out.results) := by
  have hresS := cmd_batch_speak_results files output_dir
  have hlenS :
      (files.filterMap (fun fe => (processFileSpeak fe.1 fe.2 output_dir).1)).length
        = (files.filter (fun fe => pyStrip fe.1.text != "")).length := by
    rw [filterMap_length_countP,
      countP_ext _ (fun fe => pyStrip fe.1.text != "")
        (fun fe => (processFileSpeak_isSome fe.1 fe.2 output_dir).1) files,
      List.countP_eq_length_filter]
  have hlenC :
      (files.filterMap (fun fe => (processFileClone fe.1 fe.2 output_dir).1)).length
        = (files.filter (fun fe => pyStrip fe.1.text != "")).length := by
    rw [filterMap_length_countP,
      countP_ext _ (fun fe => pyStrip fe.1.text != "")
        (fun fe => (processFileClone_isSome fe.1 fe.2 output_dir).1) files,
      List.countP_eq_length_filter]
  have hpS := processFileSpeak_of_raises f env output_dir m hne hr
  have hpC := processFileClone_of_raises f env output_dir m hne hr
  refine ⟨hresS, by rw [hresS]; exact hlenS,
    by rw [hpS],
    ?_, ?_⟩
  · rw [hresS]
    exact List.mem_filterMap.mpr ⟨(f, env), hmem, by rw [hpS]⟩
  · intro out hout
    rw [cmd_batch_clone_true] at hout
    cases hout
    refine ⟨rfl, hlenC, ?_⟩
    exact List.mem_filterMap.mpr ⟨(f, env), hmem, by rw [hpC]⟩

/-- Witness for C3: in a two-file batch where the second file's submission
raises, the error record carrying the exception message appears in the
results, and the first file is still processed (results have one entry per
non-empty file). -/
theorem batch_isolates_per_file_failures_witness :
    ({ file := "b.txt", status := "error",
       error := some "ConnectionError: boom" } : BatchResult)
      ∈ (cmd_batch_speak
          [({ name := "a.txt", stem := "a", text := "hi" },
            { submitRes := Except.ok "j1",
              waitRes := Except.ok
                { status := "completed", audio_url := some "/f/a.wav" },
              downloadRes := Except.ok () }),
           ({ name := "b.txt", stem := "b", text := "yo" },
            { submitRes := Except.error "ConnectionError: boom",
              waitRes := Except.ok { status := "completed" },
              downloadRes := Except.ok () })] "out").results := by
  exact (batch_isolates_per_file_failures
    [({ name := "a.txt", stem := "a", text := "hi" },
      { submitRes := Except.ok "j1",
        waitRes := Except.ok
          { status := "completed", audio_url := some "/f/a.wav" },
        downloadRes := Except.ok () }),
     ({ name := "b.txt", stem := "b", text := "yo" },
      { submitRes := Except.error "ConnectionError: boom",
        waitRes := Except.ok { status := "completed" },
        downloadRes := Except.ok () })] "out"
    { name := "b.txt", stem := "b", text := "yo" }
    { submitRes := Except.error "ConnectionError: boom",
      waitRes := Except.ok { status := "completed" },
      downloadRes := Except.ok () }
    "ConnectionError: boom"
    (by decide) (by decide) (by decide)).2.2.2.1

/-- C8: an input file whose stripped content is empty triggers no job
submission and contributes no entry to the results (hence none to the
report), and the `successes/total` denominator counts only the non-empty
files, in both batch commands. -/
theorem empty_files_skipped (files : List (InputFile × FileEnv))
    (output_dir : String) (f : InputFile) (env : FileEnv)
    (he : pyStrip f.text = "") :
    processFileSpeak f env output_dir = (none, false)
    ∧ processFileClone f env output_dir = (none, false)
    ∧ (cmd_batch_speak files output_dir).total
        = (files.filter (fun fe => pyStrip fe.1.text != "")).length
    ∧ (cmd_batch_speak files output_dir).submitted
        = (files.filter (fun fe => pyStrip fe.1.text != "")).length
    ∧ (∀ out, cmd_batch_clone files output_dir true = some out →
        out.total = (files.filter (fun fe => pyStrip fe.1.text != "")).length
        ∧ out.submitted
            = (files.filter (fun fe => pyStrip fe.1.text != "")).length) := by
  have htotS : (cmd_batch_speak files output_dir).total
      = (cmd_batch_speak files output_dir).results.length := rfl
  have hlenS :
      (files.filterMap (fun fe => (processFileSpeak fe.1 fe.2 output_dir).1)).length
        = (files.filter (fun fe => pyStrip fe.1.text != "")).length := by
    rw [filterMap_length_countP,
      countP_ext _ (fun fe => pyStrip fe.1.text != "")
        (fun fe => (processFileSpeak_isSome fe.1 fe.2 output_dir).1) files,
      List.countP_eq_length_filter]
  have hlenC :
      (files.filterMap (fun fe => (processFileClone fe.1 fe.2 output_dir).1)).length
        = (files.filter (fun fe => pyStrip fe.1.text != "")).length := by
    rw [filterMap_length_countP,
      countP_ext _ (fun fe => pyStrip fe.1.text != "")
        (fun fe => (processFileClone_isSome fe.1 fe.2 output_dir).1) files,
      List.countP_eq_length_filter]
  refine ⟨processFileSpeak_empty f env output_dir he,
    processFileClone_empty f env output_dir he, ?_, ?_, ?_⟩
  · rw [htotS, cmd_batch_speak_results]
    exact hlenS
  · show (files.filter (fun fe => (processFileSpeak fe.1 fe.2 output_dir).2)).length
        = _
    rw [filter_ext _ (fun fe => pyStrip fe.1.text != "")
      (fun fe => (processFileSpeak_isSome fe.1 fe.2 output_dir).2) files]
  · intro out hout
    rw [cmd_batch_clone_true] at hout
    cases hout
    refine ⟨hlenC, ?_⟩
    show (files.filter (fun fe => (processFileClone fe.1 fe.2 output_dir).2)).length
        = _
    rw [filter_ext _ (fun fe => pyStrip fe.1.text != "")
      (fun fe => (processFileClone_isSome fe.1 fe.2 output_dir).2) files]

/-- Witness for C8: a batch of one whitespace-only file and one non-empty
file performs the empty-file skip and counts a denominator of 1. -/
theorem empty_files_skipped_witness :
    processFileSpeak { name := "e.txt", stem := "e", text := "  " }
        { submitRes := Except.ok "j1",
          waitRes := Except.ok { status := "completed" },
          downloadRes := Except.ok () } "out"
      = (none, false)
    ∧ (cmd_batch_speak
        [({ name := "e.txt", stem := "e", text := "  " },
          { submitRes := Except.ok "j1",
            waitRes := Except.ok { status := "completed" },
            downloadRes := Except.ok () }),
         ({ name := "a.txt", stem := "a", text := "hi" },
          { submitRes := Except.error "boom",
            waitRes := Except.ok { status := "completed" },
            downloadRes := Except.ok () })] "out").total = 1 := by
  have h := empty_files_skipped
    [({ name := "e.txt", stem := "e", text := "  " },
      { submitRes := Except.ok "j1",
        waitRes := Except.ok { status := "completed" },
        downloadRes := Except.ok () }),
     ({ name := "a.txt", stem := "a", text := "hi" },
      { submitRes := Except.error "boom",
        waitRes := Except.ok { status := "completed" },
        downloadRes := Except.ok () })] "out"
    { name := "e.txt", stem := "e", text := "  " }
    { submitRes := Except.ok "j1",
      waitRes := Except.ok { status := "completed" },
      downloadRes := Except.ok () }
    (by decide)
  exact ⟨h.1, h.2.2.1.trans (by decide)⟩

end TTS

namespace TTS

/-- C4 counterexample: a concrete batch-clone run whose single file
succeeds writes no JSON report (`reportWritten = none`) and its success
record carries no output path, refuting the claim for batch-clone runs. -/
theorem batch_clone_no_report_cex :
    cmd_batch_clone
      [({ name := "a.txt", stem := "a", text := "hello" },
        { submitRes := Except.ok "j1",
          waitRes := Except.ok
            { status := "completed", audio_url := some "/files/j1.wav" },
          downloadRes := Except.ok () })] "out" true
      = some { results := [{ file := "a.txt", status := "success" }],
               submitted := 1, reportWritten := none, successes := 1,
               total := 1 } := by
  decide

/-- C4 amended: after a batch-speak run the JSON report
`output_dir/batch_report.json` is written with the ordered per-file
results, the printed summary is `successes/total` over those results, and
every success record carries the output path of the written artifact; a
batch-clone run prints the same summary but writes no report, and its
records carry no output path. -/
theorem batch_report_and_summary (files : List (InputFile × FileEnv))
    (output_dir : String) :
    (cmd_batch_speak files output_dir).reportWritten
        = some (output_dir ++ "/batch_report.json")
    ∧ (cmd_batch_speak files output_dir).results
        = files.filterMap (fun fe => (processFileSpeak fe.1 fe.2 output_dir).1)
    ∧ (cmd_batch_speak files output_dir).successes
        = (cmd_batch_speak files output_dir).results.countP
            (fun r => r.status == "success")
    ∧ (cmd_batch_speak files output_dir).total
        = (cmd_batch_speak files output_dir).results.length
    ∧ (∀ f env r, (processFileSpeak f env output_dir).1 = some r →
        r.status = "success" →
        r.output = some (output_dir ++ "/" ++ f.stem ++ ".wav"))
    ∧ (∀ out, cmd_batch_clone files output_dir true = some out →
        out.reportWritten = none
        ∧ out.successes = out.results.countP (fun r => r.status == "success")
        ∧ out.total = out.results.length
        ∧ ∀ r ∈ out.results, r.output = none) := by
  refine ⟨rfl, cmd_batch_speak_results files output_dir, rfl, rfl,
    ?_, ?_⟩
  · intro f env r h hst
    exact processFileSpeak_success_output f env output_dir r h hst
  · intro out hout
    rw [cmd_batch_clone_true] at hout
    cases hout
    refine ⟨rfl, rfl, rfl, ?_⟩
    intro r hrmem
    rcases List.mem_filterMap.mp hrmem with ⟨fe, _, hfe⟩
    exact processFileClone_output_none fe.1 fe.2 output_dir r hfe

/-- Witness for C4 (amended): a concrete one-file batch-speak run writes
the report into the output directory and its success record carries the
artifact path. -/
theorem batch_report_and_summary_witness :
    (cmd_batch_speak
      [({ name := "a.txt", stem := "a", text := "hello" },
        { submitRes := Except.ok "j1",
          waitRes := Except.ok
            { status := "completed", audio_url := some "/files/j1.wav" },
          downloadRes := Except.ok () })] "out").reportWritten
      = some "out/batch_report.json" := by
  have h := (batch_report_and_summary
    [({ name := "a.txt", stem := "a", text := "hello" },
      { submitRes := Except.ok "j1",
        waitRes := Except.ok
          { status := "completed", audio_url := some "/files/j1.wav" },
        downloadRes := Except.ok () })] "out").1
  exact h.trans (by decide)

/-- C5 counterexample: submitting a custom-voice job whose required `text`
field is empty still issues the HTTP POST (with the empty text in the
payload) — no client-side check fails before the network call, refuting
the claim for empty required fields. -/
theorem empty_text_still_posts_cex :
    custom_voice_requests API_BASE "" "vivian" "Auto" none
      = [{ url := API_BASE ++ "/tts/custom-voice",
           fields := [("text", ""), ("speaker", "vivian"),
                      ("language", "Auto")] }]
    ∧ custom_voice_requests API_BASE "" "vivian" "Auto" none ≠ [] := by
  exact ⟨rfl, by decide⟩

/-- C5 amended: a voice-clone submission whose referenced local audio file
does not exist fails before any network request is issued (the reference
file is opened before the POST); no job kind checks required fields for
emptiness client-side — each submission function issues exactly one POST
regardless of its field contents. -/
theorem submission_preconditions (base_url text speaker language
    audio_path : String) (ref_text instruct : Option String)
    (x_vector_only : Bool) (design_text design_instruct vdesc : String)
    (clone_texts : List String) (design_language clone_language : String) :
    voice_clone_requests base_url text audio_path false language ref_text
        x_vector_only instruct
      = Except.error ("FileNotFoundError: " ++ audio_path)
    ∧ (custom_voice_requests base_url text speaker language instruct).length = 1
    ∧ (voice_design_requests base_url text vdesc language).length = 1
    ∧ (voice_clone_with_timbre_requests base_url text speaker language
        instruct).length = 1
    ∧ (voice_design_clone_requests base_url design_text design_instruct
        clone_texts design_language clone_language).length = 1
    ∧ (∀ reqs, voice_clone_requests base_url text audio_path true language
        ref_text x_vector_only instruct = Except.ok reqs →
          reqs.length = 1) := by
  refine ⟨rfl, ?_, rfl, ?_, rfl, ?_⟩
  · unfold custom_voice_requests
    cases truthyOpt instruct <;> simp
  · unfold voice_clone_with_timbre_requests
    cases truthyOpt instruct <;> simp
  · intro reqs hreqs
    unfold voice_clone_requests at hreqs
    simp only [if_true] at hreqs
    cases truthyOpt ref_text <;> cases truthyOpt instruct <;>
      simp_all <;> simp [← hreqs]

/-- Witness for C5 (amended): a concrete voice-clone submission with a
missing reference file raises before any POST, and a concrete custom-voice
submission with empty text issues its one POST. -/
theorem submission_preconditions_witness :
    voice_clone_requests API_BASE "hi" "/tmp/missing.wav" false "Auto" none
        false none
      = Except.error "FileNotFoundError: /tmp/missing.wav"
    ∧ (custom_voice_requests API_BASE "" "vivian" "Auto" none).length = 1 := by
  have h := submission_preconditions API_BASE "hi" "vivian" "Auto"
    "/tmp/missing.wav" none none false "d" "di" "vd" [] "Auto" "Auto"
  refine ⟨h.1.trans (by decide), ?_⟩
  have h2 := submission_preconditions API_BASE "" "vivian" "Auto"
    "/tmp/missing.wav" none none false "d" "di" "vd" [] "Auto" "Auto"
  exact h2.2.1

end TTS

namespace TTS

/-- C6 counterexample: for the artifact URL `/files/j1.wav` against the
default base URL, the code appends to the full base URL (its path
included), whereas the claim's rule appends to the base URL's origin
(scheme and host only); the two resolutions differ at this input. -/
theorem slash_url_joined_to_full_base_cex :
    download_audio_url API_BASE "/files/j1.wav"
        = "https://mc.agaii.org/TTS/api/v1/files/j1.wav"
    ∧ specResolveUrl API_BASE "/files/j1.wav"
        = "https://mc.agaii.org/files/j1.wav"
    ∧ download_audio_url API_BASE "/files/j1.wav"
        ≠ specResolveUrl API_BASE "/files/j1.wav" := by
  refine ⟨by decide, by decide, by decide⟩

/-- C6 amended: the fetched URL is determined by exactly three cases — a
URL starting with `/` is appended to the full base URL; otherwise a URL
starting with `http` (an absolute URL) is used unchanged; any other bare
relative path is appended to the base URL with a `/` separator. -/
theorem download_url_resolution (base_url audio_url : String) :
    (pyStartsWith audio_url "/" = true →
      download_audio_url base_url audio_url = base_url ++ audio_url)
    ∧ (pyStartsWith audio_url "/" = false →
        pyStartsWith audio_url "http" = true →
      download_audio_url base_url audio_url = audio_url)
    ∧ (pyStartsWith audio_url "/" = false →
        pyStartsWith audio_url "http" = false →
      download_audio_url base_url audio_url
        = base_url ++ "/" ++ audio_url) := by
  refine ⟨fun h1 => ?_, fun h1 h2 => ?_, fun h1 h2 => ?_⟩
  · simp [download_audio_url, h1]
  · simp [download_audio_url, h1, h2]
  · simp [download_audio_url, h1, h2]

/-- Witness for C6 (amended): the three cases at concrete inputs. -/
theorem download_url_resolution_witness :
    download_audio_url "http://b/api" "/x.wav" = "http://b/api/x.wav"
    ∧ download_audio_url "http://b/api" "http://cdn/y.wav"
        = "http://cdn/y.wav"
    ∧ download_audio_url "http://b/api" "files/z.wav"
        = "http://b/api/files/z.wav" := by
  refine
    ⟨((download_url_resolution "http://b/api" "/x.wav").1
        (by decide)).trans (by decide),
     ((download_url_resolution "http://b/api" "http://cdn/y.wav").2.1
        (by decide) (by decide)).trans (by decide),
     ((download_url_resolution "http://b/api" "files/z.wav").2.2
        (by decide) (by decide)).trans (by decide)⟩

/-- C7 counterexample: a completed status with no artifact reference makes
the single-job command print the generic failure message `Unknown` — not
a distinct `no audio produced` message — before exiting non-zero. -/
theorem completed_without_audio_unknown_cex :
    jobCmdFinish { status := "completed" } "out.wav"
      = (CmdOutcome.failedExit "Unknown", false)
    ∧ "Unknown" ≠ "no audio produced" := by
  exact ⟨rfl, by decide⟩

/-- C7 amended: when the awaited terminal status is `completed` but
carries no truthy `audio_url`, every single-job command falls into the
generic failure branch: it reports `status.get("error", "Unknown")` (the
same message format as failed jobs, not a distinct "no audio produced"
message), signals failure with a non-zero exit, and performs no
download. -/
theorem completed_without_audio_generic_failure (st : JobStatus)
    (output : String) (hs : st.status = "completed")
    (ha : truthyOpt st.audio_url = false) :
    jobCmdFinish st output
      = (CmdOutcome.failedExit (st.error.getD "Unknown"), false) := by
  simp [jobCmdFinish, hs, ha]

/-- Witness for C7 (amended): a completed status without `audio_url` but
with a server error message reports that message, with no download. -/
theorem completed_without_audio_generic_failure_witness :
    jobCmdFinish { status := "completed", error := some "server hiccup" }
        "out.wav"
      = (CmdOutcome.failedExit "server hiccup", false) := by
  exact (completed_without_audio_generic_failure
    { status := "completed", error := some "server hiccup" } "out.wav"
    (by decide) (by decide)).trans (by decide)

end TTS
